import Mathlib

/-!
Verification of the command-interpretation and accessibility-transliteration
engine of the accessible-movie-api repository.

The TypeScript sources are shallowly embedded:
* strings are `List Char` (`Str`); `command.includes(p)` is contiguous-substring
  containment `occursIn`; `toLowerCase`/`trim` are `lc`/`trimStr` (ASCII case
  folding, which covers every string the engine's fixed tables contain);
* JavaScript object-literal lookup on the fixed tables is association-list
  lookup `alookup`;
* numeric confidences and scores are exact rationals (`ℚ`);
* fallible endpoints return `Except APIErr _`, mirroring thrown `APIError`s;
* the relational movie store is an explicit parameter `store : ℕ → Option Movie`.
-/

namespace Spec2Proof

/-- Strings of the embedded program. -/
abbrev Str := List Char

/-- `String.prototype.toLowerCase`, restricted to ASCII (all table entries are ASCII). -/
def lc (s : Str) : Str := s.map Char.toLower

/-- `String.prototype.trim`: strip leading and trailing whitespace. -/
def trimStr (s : Str) : Str :=
  ((s.dropWhile Char.isWhitespace).reverse.dropWhile Char.isWhitespace).reverse

/-- `haystack.includes(needle)` — contiguous substring containment. -/
def occursIn (needle hay : Str) : Bool := decide (needle <:+: hay)

theorem occursIn_iff (needle hay : Str) : occursIn needle hay = true ↔ needle <:+: hay := by
  simp [occursIn]

/-- JavaScript object-literal lookup on a fixed table of string keys. -/
def alookup : List (Str × Str) → Str → Option Str
  | [], _ => none
  | (k, v) :: rest, key => if key = k then some v else alookup rest key

/-! ## `src/backend/movies/voice_navigation.ts` — intent classification -/

/-- The fixed `intents` table of `analyzeCommandIntent`, in source order. -/
def intents : List (String × List Str) :=
  [ ("search", ["find".data, "search".data, "look for".data, "show me".data,
      "get".data, "discover".data]),
    ("play", ["play".data, "start".data, "watch".data, "begin".data, "stream".data]),
    ("pause", ["pause".data, "stop".data, "halt".data, "freeze".data]),
    ("navigate", ["go to".data, "open".data, "navigate".data, "take me to".data,
      "switch to".data]),
    ("help", ["help".data, "assist".data, "guide".data, "what can".data, "how do".data]),
    ("describe", ["describe".data, "tell me about".data, "explain".data, "what is".data]),
    ("filter", ["filter".data, "show only".data, "with".data, "that have".data]),
    ("recommend", ["recommend".data, "suggest".data, "what should".data,
      "find me something".data]) ]

/-- The double loop of `analyzeCommandIntent`: first intent (in table order) with a
trigger substring present wins with confidence 0.8; otherwise `unknown` / 0. -/
def findIntent : List (String × List Str) → Str → String × ℚ
  | [], _ => ("unknown", 0)
  | (name, kws) :: rest, cmd =>
    if kws.any (fun k => occursIn k cmd) then (name, 0.8) else findIntent rest cmd

/-- The `entities` record built by `extractEntities`. -/
structure Entities where
  accessibilityFeatures : List String
  genres : List Str
  actions : List Str
deriving DecidableEq

/-- `extractEntities` — additive substring scan over three fixed vocabularies. -/
def extractEntities (command : Str) : Entities :=
  { accessibilityFeatures :=
      (if occursIn "audio description".data command || occursIn "narration".data command
        then ["audio_description"] else []) ++
      (if occursIn "caption".data command || occursIn "subtitle".data command
        then ["closed_captions"] else []) ++
      (if occursIn "sign language".data command then ["sign_language"] else [])
    genres :=
      (["action".data, "comedy".data, "drama".data, "documentary".data, "horror".data,
        "romance".data, "thriller".data, "sci-fi".data, "fantasy".data]).filter
        (fun g => occursIn g command)
    actions :=
      (["volume".data, "speed".data, "quality".data, "fullscreen".data,
        "settings".data]).filter (fun a => occursIn a command) }

/-- The record returned by `analyzeCommandIntent`. -/
structure CommandIntent where
  intent : String
  confidence : ℚ
  entities : Entities
  originalCommand : Str
  context : String
deriving DecidableEq

/-- `analyzeCommandIntent(command, context)`. -/
def analyzeCommandIntent (command : Str) (context : String) : CommandIntent :=
  let r := findIntent intents command
  { intent := r.1, confidence := r.2, entities := extractEntities command,
    originalCommand := command, context := context }

theorem findIntent_confidence (table : List (String × List Str)) (cmd : Str) :
    (findIntent table cmd).2 = 0 ∨ (findIntent table cmd).2 = 0.8 := by
  induction table with
  | nil => left; rfl
  | cons p rest ih =>
    obtain ⟨name, kws⟩ := p
    by_cases h : kws.any (fun k => occursIn k cmd) = true
    · right; simp [findIntent, h]
    · simpa [findIntent, h] using ih

theorem findIntent_of_no_trigger (table : List (String × List Str)) (cmd : Str)
    (h : ∀ p ∈ table, p.2.any (fun k => occursIn k cmd) = false) :
    findIntent table cmd = ("unknown", 0) := by
  induction table with
  | nil => rfl
  | cons p rest ih =>
    obtain ⟨name, kws⟩ := p
    have h0 : kws.any (fun k => occursIn k cmd) = false := h (name, kws) (by simp)
    simp only [findIntent, h0, Bool.false_eq_true, if_false]
    exact ih (fun q hq => h q (List.mem_cons_of_mem _ hq))

theorem findIntent_first (cmd : Str) :
    ∀ (table : List (String × List Str)) (i : ℕ) (hi : i < table.length),
    (table.get ⟨i, hi⟩).2.any (fun k => occursIn k cmd) = true →
    (∀ j (hj : j < i), (table.get ⟨j, hj.trans hi⟩).2.any (fun k => occursIn k cmd) = false) →
    findIntent table cmd = ((table.get ⟨i, hi⟩).1, 0.8) := by
  intro table
  induction table with
  | nil => intro i hi; simp at hi
  | cons p rest ih =>
    intro i hi hhit hbefore
    obtain ⟨name, kws⟩ := p
    cases i with
    | zero =>
      simp only [List.get] at hhit ⊢
      simp [findIntent, hhit]
    | succ n =>
      have h0 : kws.any (fun k => occursIn k cmd) = false := by
        have := hbefore 0 (Nat.succ_pos n)
        simpa using this
      simp only [List.get] at hhit ⊢
      simp only [findIntent, h0, Bool.false_eq_true, if_false]
      exact ih n (Nat.lt_of_succ_lt_succ hi) hhit
        (fun j hj => by
          have := hbefore (j + 1) (Nat.succ_lt_succ hj)
          simpa using this)

/-- C1: intent classification scans the fixed intent table in order
(search, play, pause, navigate, help, describe, filter, recommend); the first
intent one of whose trigger substrings occurs in the command is returned with
confidence exactly 0.8; if no trigger of any intent occurs the result is intent
"unknown" with confidence 0; hence the returned confidence is always 0 or 0.8. -/
theorem analyzeCommandIntent_first_match :
    (∀ (cmd : Str) (ctx : String),
      (analyzeCommandIntent cmd ctx).confidence = 0 ∨
      (analyzeCommandIntent cmd ctx).confidence = 0.8)
    ∧ (∀ (cmd : Str) (ctx : String),
        (∀ p ∈ intents, p.2.any (fun k => occursIn k cmd) = false) →
        (analyzeCommandIntent cmd ctx).intent = "unknown" ∧
        (analyzeCommandIntent cmd ctx).confidence = 0)
    ∧ (∀ (cmd : Str) (ctx : String) (i : ℕ) (hi : i < intents.length),
        (intents.get ⟨i, hi⟩).2.any (fun k => occursIn k cmd) = true →
        (∀ j (hj : j < i),
          (intents.get ⟨j, hj.trans hi⟩).2.any (fun k => occursIn k cmd) = false) →
        (analyzeCommandIntent cmd ctx).intent = (intents.get ⟨i, hi⟩).1 ∧
        (analyzeCommandIntent cmd ctx).confidence = 0.8) := by
  refine ⟨?_, ?_, ?_⟩
  · intro cmd ctx
    simpa [analyzeCommandIntent] using findIntent_confidence intents cmd
  · intro cmd ctx h
    have := findIntent_of_no_trigger intents cmd h
    simp [analyzeCommandIntent, this]
  · intro cmd ctx i hi hhit hbefore
    have := findIntent_first cmd intents i hi hhit hbefore
    simp [analyzeCommandIntent, this]

/-- Witness for C1: "please play it" matches no search trigger, and "play" is a
trigger of the second table entry, so the classifier returns intent "play"
with confidence 0.8. -/
theorem analyzeCommandIntent_first_match_witness :
    (analyzeCommandIntent "please play it".data "player").intent = "play" ∧
    (analyzeCommandIntent "please play it".data "player").confidence = 0.8 := by
  refine analyzeCommandIntent_first_match.2.2 "please play it".data "player" 1 (by decide)
    (by decide) ?_
  intro j hj
  have hj0 : j = 0 := by omega
  subst hj0
  exact (by decide :
    ((intents.get ⟨0, Nat.succ_pos 7⟩).2.any fun k => occursIn k "please play it".data) = false)

/-! ## `voice_navigation.ts` — response model and context handlers -/

/-- A predicted-next-action triple. -/
structure PredictedAction where
  action : String
  description : String
  confidence : ℚ
deriving DecidableEq

/-- The `data` payload of a `VoiceCommandResponse`, one shape per producing branch;
`nodata` stands for an absent field.  In `searchData`, an empty filter list / `none`
genre encode the conditionally-absent `accessibilityFilters` / `genre` fields. -/
inductive RespData where
  | nodata
  | searchData (query : Str) (accessibilityFilters : List String) (genre : Option Str)
  | filterData (filter : Str) (accessibilityFocus : Bool)
  | recommendData (userId : Option String) (accessibilityFocused : Bool)
  | volumeData (volumeAction : String)
  | captionsData (enable : Bool)
  | descriptionData (description : String)
  | featuresData (features : List String)
  | ratingData (rating : ℚ)
deriving DecidableEq

/-- The `VoiceCommandResponse` record; an omitted `navigationInstructions` field
is the empty list. -/
structure VoiceCommandResponse where
  action : String
  response : String
  data : RespData
  speechText : String
  navigationInstructions : List String
  predictedNextActions : List PredictedAction
deriving DecidableEq

/-- The two `APIError` kinds the voice endpoints throw. -/
inductive APIErr where
  | invalidArgument (msg : String)
  | notFound (msg : String)
deriving DecidableEq

/-- A row of the `movies` table, restricted to the columns the handlers read. -/
structure Movie where
  title : String
  overview : String
  vote_average : ℚ
  vote_count : ℕ
  audio_description_available : Bool
  closed_captions_available : Bool
  sign_language_available : Bool
  narrated_description : Bool
deriving DecidableEq

/-- The caller-supplied command context. -/
inductive Ctx where
  | search | player | details | navigation
deriving DecidableEq

/-- Remainder of `s` after the first occurrence of `pat`, if any. -/
def afterFirst (pat : Str) : Str → Option Str
  | [] => if List.isPrefixOf pat ([] : Str) then some [] else none
  | c :: t =>
    if List.isPrefixOf pat (c :: t) then some ((c :: t).drop pat.length)
    else afterFirst pat t

/-- The regex `/pat (.+)/i` applied to an already-lowercased, newline-free string:
the trimmed text after the first occurrence of `pat ++ " "` that is followed by at
least one character. -/
def matchCapture (pat : Str) (s : Str) : Option Str :=
  match afterFirst (pat ++ [' ']) s with
  | some rest => if rest = [] then none else some (trimStr rest)
  | none => none

/-- First pattern of the list whose capture succeeds. -/
def firstCapture : List Str → Str → Option Str
  | [], _ => none
  | p :: ps, s =>
    match matchCapture p s with
    | some t => some t
    | none => firstCapture ps s

/-- The alternation `/search|find|for|look|show|me|get|discover/gi`, in source order. -/
def noiseWords : List Str :=
  ["search".data, "find".data, "for".data, "look".data, "show".data, "me".data,
   "get".data, "discover".data]

/-- Global replacement of every noise-word occurrence by the empty string
(left-to-right, resuming after each removed match). -/
def removeNoise : Str → Str
  | [] => []
  | c :: t =>
    match noiseWords.find? (fun w => List.isPrefixOf w (c :: t)) with
    | some w => removeNoise (t.drop (w.length - 1))
    | none => c :: removeNoise t
termination_by s => s.length
decreasing_by
  · simp only [List.length_drop, List.length_cons]; omega
  · simp only [List.length_cons]; omega

/-- `extractSearchTerm` of `voice_navigation.ts`. -/
def extractSearchTerm (command : Str) : Str :=
  match firstCapture ["search for".data, "find".data, "look for".data, "show me".data,
      "get".data, "discover".data] command with
  | some t => t
  | none => trimStr (removeNoise command)

/-- `extractFilter` of `voice_navigation.ts`. -/
def extractFilter (command : Str) : Str :=
  match firstCapture ["filter by".data, "show only".data, "only".data, "with".data,
      "that have".data] command with
  | some t => t
  | none => "unknown".data

/-- `handleSearchCommands(command, intent, userId)`. -/
def handleSearchCommands (command : Str) (intent : CommandIntent) (userId : Option String) :
    Except APIErr VoiceCommandResponse :=
  if intent.intent = "search" ∨ intent.intent = "find" then
    let searchTerm := extractSearchTerm command
    .ok {
      action := "search"
      response := "Searching for \"" ++ String.mk searchTerm ++ "\" with accessibility features"
      data := RespData.searchData searchTerm intent.entities.accessibilityFeatures
        intent.entities.genres.head?
      speechText := "Searching for " ++ String.mk searchTerm ++
        ". I'll prioritize content with accessibility features for you."
      navigationInstructions := [
        "Search results will be announced when ready",
        "Use arrow keys to navigate through results",
        "Press Enter to select a movie",
        "Say \"filter by\" to add more search criteria"]
      predictedNextActions := [
        ⟨"view_results", "Browse search results", 0.9⟩,
        ⟨"refine_search", "Add more filters", 0.7⟩,
        ⟨"play_first_result", "Play the top result", 0.6⟩] }
  else if intent.intent = "filter" then
    let filter := extractFilter command
    .ok {
      action := "filter"
      response := "Applying filter: " ++ String.mk filter
      data := RespData.filterData filter true
      speechText := "Filtering results by " ++ String.mk filter ++
        ". I'll show you the most accessible options first."
      navigationInstructions := []
      predictedNextActions := [
        ⟨"apply_filter", "Apply the specified filter", 0.95⟩,
        ⟨"view_filtered_results", "Browse filtered results", 0.8⟩] }
  else if intent.intent = "recommend" then
    .ok {
      action := "recommend"
      response := "Getting personalized accessible movie recommendations"
      data := RespData.recommendData userId true
      speechText := "Let me find some great accessible movies for you based on your preferences."
      navigationInstructions := []
      predictedNextActions := [
        ⟨"get_recommendations", "Get personalized recommendations", 0.9⟩,
        ⟨"browse_categories", "Explore content categories", 0.7⟩] }
  else
    .ok {
      action := "unknown"
      response := "I didn't understand that search command"
      data := RespData.nodata
      speechText := "I didn't understand that search command. Try saying \"search for\" followed by a movie title, or \"recommend movies with audio descriptions\"."
      navigationInstructions := []
      predictedNextActions := [] }

/-- `handlePlayerCommands(command, intent, movieId)`; the store models `moviesDB`.
`movieId.getD 0 = 0` is the JavaScript falsy test `!movieId` on `number | undefined`. -/
def handlePlayerCommands (command : Str) (intent : CommandIntent) (movieId : Option ℕ)
    (store : ℕ → Option Movie) : Except APIErr VoiceCommandResponse :=
  if movieId.getD 0 = 0 then
    .error (.invalidArgument "Movie ID required for player commands")
  else
    let movieTitle :=
      match store (movieId.getD 0) with
      | some m => if m.title = "" then "this movie" else m.title
      | none => "this movie"
    if intent.intent = "play" then
      .ok {
        action := "play"
        response := "Starting " ++ movieTitle ++ " with accessibility features"
        data := RespData.nodata
        speechText := "Starting " ++ movieTitle ++
          ". Audio descriptions and captions are enabled. Use voice commands to control playback."
        navigationInstructions := [
          "Say \"pause\" to pause the movie",
          "Say \"volume up\" or \"volume down\" to adjust audio",
          "Say \"enable captions\" to turn on closed captions",
          "Say \"describe scene\" for additional narration"]
        predictedNextActions := [
          ⟨"enable_accessibility", "Enable accessibility features", 0.9⟩,
          ⟨"adjust_settings", "Adjust playback settings", 0.7⟩,
          ⟨"pause", "Pause playback", 0.6⟩] }
    else if intent.intent = "pause" then
      .ok {
        action := "pause"
        response := "Pausing " ++ movieTitle
        data := RespData.nodata
        speechText := movieTitle ++ " paused. Say \"play\" to resume, or \"stop\" to exit."
        navigationInstructions := []
        predictedNextActions := [
          ⟨"resume", "Resume playback", 0.8⟩,
          ⟨"stop", "Stop and exit", 0.6⟩,
          ⟨"adjust_settings", "Modify settings", 0.5⟩] }
    else if occursIn "volume".data command then
      let volumeAction : String :=
        if occursIn "up".data command then "increase"
        else if occursIn "down".data command then "decrease"
        else "set"
      .ok {
        action := "volume"
        response := "Adjusting volume " ++ volumeAction
        data := RespData.volumeData volumeAction
        speechText := "Volume " ++ volumeAction ++ "d. Current volume level will be announced."
        navigationInstructions := []
        predictedNextActions := [
          ⟨"continue_watching", "Continue with new volume", 0.8⟩,
          ⟨"adjust_more", "Make further adjustments", 0.6⟩] }
    else if occursIn "caption".data command || occursIn "subtitle".data command then
      let enable := occursIn "enable".data command || occursIn "on".data command ||
        occursIn "turn on".data command
      .ok {
        action := "captions"
        response := if enable then "Enabling captions" else "Disabling captions"
        data := RespData.captionsData enable
        speechText := if enable then "Closed captions enabled." else "Closed captions disabled."
        navigationInstructions := []
        predictedNextActions := [
          ⟨"continue_watching", "Continue with captions", 0.9⟩,
          ⟨"adjust_caption_settings", "Customize caption appearance", 0.6⟩] }
    else if occursIn "describe".data command || occursIn "narrate".data command then
      .ok {
        action := "describe"
        response := "Providing additional scene description"
        data := RespData.nodata
        speechText := "Activating enhanced scene description. I'll provide more detailed narration of visual elements."
        navigationInstructions := []
        predictedNextActions := [
          ⟨"continue_narration", "Continue with enhanced narration", 0.8⟩,
          ⟨"adjust_narration_speed", "Change narration speed", 0.6⟩] }
    else
      .ok {
        action := "unknown"
        response := "Player command not recognized"
        data := RespData.nodata
        speechText := "Player command not recognized. Try \"play\", \"pause\", \"volume up\", \"volume down\", \"enable captions\", or \"describe scene\"."
        navigationInstructions := []
        predictedNextActions := [] }

/-- `Number.prototype.toFixed(1)` for the nonnegative ratings handled here. -/
def toFixed1 (q : ℚ) : String :=
  let n : ℤ := round (q * 10)
  toString (n / 10) ++ "." ++ toString (n % 10)

/-- `handleDetailsCommands(command, intent, movieId)`. -/
def handleDetailsCommands (command : Str) (intent : CommandIntent) (movieId : Option ℕ)
    (store : ℕ → Option Movie) : Except APIErr VoiceCommandResponse :=
  if movieId.getD 0 = 0 then
    .error (.invalidArgument "Movie ID required for details commands")
  else
    match store (movieId.getD 0) with
    | none => .error (.notFound "Movie not found")
    | some movie =>
      if intent.intent = "describe" ∨ occursIn "tell me about".data command then
        .ok {
          action := "read_description"
          response := "Reading movie description"
          data := RespData.descriptionData movie.overview
          speechText := movie.title ++ ". " ++ movie.overview
          navigationInstructions := []
          predictedNextActions := [
            ⟨"play_movie", "Start watching the movie", 0.8⟩,
            ⟨"add_to_favorites", "Add to favorites", 0.6⟩,
            ⟨"find_similar", "Find similar movies", 0.7⟩] }
      else if occursIn "accessibility".data command ∨ occursIn "features".data command then
        let features : List String :=
          (if movie.audio_description_available then ["audio description"] else []) ++
          (if movie.closed_captions_available then ["closed captions"] else []) ++
          (if movie.sign_language_available then ["sign language interpretation"] else []) ++
          (if movie.narrated_description then ["detailed AI narration"] else [])
        let featuresText :=
          if features.length > 0 then
            "This movie has the following accessibility features: " ++
              String.intercalate ", " features ++ "."
          else
            "This movie does not have specific accessibility features listed, but I can generate audio descriptions for you."
        .ok {
          action := "accessibility_features"
          response := "Listing accessibility features"
          data := RespData.featuresData features
          speechText := featuresText
          navigationInstructions := []
          predictedNextActions := [
            ⟨"enable_features", "Enable accessibility features", 0.9⟩,
            ⟨"play_with_features", "Start watching with features enabled", 0.8⟩] }
      else if occursIn "rating".data command ∨ occursIn "how good".data command then
        .ok {
          action := "rating"
          response := "Reading movie rating"
          data := RespData.ratingData movie.vote_average
          speechText := "This movie has a rating of " ++ toFixed1 movie.vote_average ++
            " out of 10, based on " ++ toString movie.vote_count ++ " votes."
          navigationInstructions := []
          predictedNextActions := [
            ⟨"read_reviews", "Read user reviews", 0.7⟩,
            ⟨"play_movie", "Start watching", 0.8⟩,
            ⟨"find_similar_rated", "Find similarly rated movies", 0.6⟩] }
      else if occursIn "similar".data command ∨ occursIn "like this".data command then
        .ok {
          action := "find_similar"
          response := "Finding similar accessible movies"
          data := RespData.nodata
          speechText := "Let me find similar movies with accessibility features for you."
          navigationInstructions := []
          predictedNextActions := [
            ⟨"browse_similar", "Browse similar movies", 0.9⟩,
            ⟨"add_to_watchlist", "Add similar movies to watchlist", 0.7⟩] }
      else
        .ok {
          action := "unknown"
          response := "Details command not recognized"
          data := RespData.nodata
          speechText := "Command not recognized. Try \"tell me about this movie\", \"accessibility features\", \"rating\", or \"find similar movies\"."
          navigationInstructions := []
          predictedNextActions := [] }

/-- `handleNavigationCommands(command, intent, userId)`.  Note the source tests the
literal `'what can I say'` (capital I) against the already-lowercased command. -/
def handleNavigationCommands (command : Str) (intent : CommandIntent)
    (_userId : Option String) : Except APIErr VoiceCommandResponse :=
  if occursIn "go home".data command ∨ occursIn "main page".data command then
    .ok {
      action := "navigate_home"
      response := "Navigating to home page"
      data := RespData.nodata
      speechText := "Navigating to home page. Popular accessible movies will be loaded with audio descriptions and captions prioritized."
      navigationInstructions := [
        "Home page contains popular movies with accessibility features",
        "Use Tab to navigate between movie cards",
        "Press Enter to view movie details",
        "Say \"recommend movies\" for personalized suggestions"]
      predictedNextActions := [
        ⟨"browse_popular", "Browse popular accessible movies", 0.8⟩,
        ⟨"get_recommendations", "Get personalized recommendations", 0.7⟩,
        ⟨"search_content", "Search for specific content", 0.6⟩] }
  else if occursIn "search page".data command ∨ occursIn "find movies".data command then
    .ok {
      action := "navigate_search"
      response := "Navigating to search page"
      data := RespData.nodata
      speechText := "Navigating to search page. You can search for movies by title, genre, or accessibility features using voice commands."
      navigationInstructions := [
        "Search input field is focused and ready",
        "Type your search query or use voice commands",
        "Say \"filter by audio descriptions\" for accessible content",
        "Results will be announced when available"]
      predictedNextActions := [
        ⟨"start_search", "Begin searching for content", 0.9⟩,
        ⟨"use_voice_search", "Use voice search", 0.8⟩,
        ⟨"apply_accessibility_filters", "Filter by accessibility features", 0.7⟩] }
  else if occursIn "favorites".data command ∨ occursIn "my movies".data command then
    .ok {
      action := "navigate_favorites"
      response := "Navigating to favorites"
      data := RespData.nodata
      speechText := "Navigating to your favorite movies. Your saved accessible movies will be displayed with their accessibility features highlighted."
      navigationInstructions := []
      predictedNextActions := [
        ⟨"browse_favorites", "Browse favorite movies", 0.9⟩,
        ⟨"play_favorite", "Play a favorite movie", 0.7⟩,
        ⟨"organize_favorites", "Organize favorites list", 0.5⟩] }
  else if occursIn "settings".data command ∨ occursIn "accessibility options".data command then
    .ok {
      action := "navigate_settings"
      response := "Navigating to accessibility settings"
      data := RespData.nodata
      speechText := "Navigating to accessibility settings. You can customize your viewing preferences, voice commands, and accessibility features here."
      navigationInstructions := [
        "Accessibility settings allow you to customize your experience",
        "Use Tab to navigate between options",
        "Changes are saved automatically",
        "Say \"test speech\" to verify voice settings"]
      predictedNextActions := [
        ⟨"adjust_accessibility", "Modify accessibility settings", 0.9⟩,
        ⟨"configure_voice", "Set up voice commands", 0.8⟩,
        ⟨"test_features", "Test accessibility features", 0.7⟩] }
  else if intent.intent = "help" ∨ occursIn "what can I say".data command then
    .ok {
      action := "help"
      response := "Showing voice command help"
      data := RespData.nodata
      speechText := "Available voice commands: \"search for\" followed by a movie title, \"go home\", \"search page\", \"favorites\", \"settings\", \"play\", \"pause\", \"volume up\", \"volume down\", \"enable captions\", \"tell me about this movie\", \"accessibility features\", \"rating\", and \"find similar movies\". I can also provide personalized recommendations and help you navigate with full accessibility support."
      navigationInstructions := [
        "Voice commands work throughout the application",
        "Speak clearly and wait for confirmation",
        "Say \"help\" anytime to hear available commands",
        "I can provide proactive assistance based on your needs"]
      predictedNextActions := [
        ⟨"try_voice_command", "Try a voice command", 0.8⟩,
        ⟨"explore_features", "Explore accessibility features", 0.7⟩,
        ⟨"get_tutorial", "Start accessibility tutorial", 0.6⟩] }
  else
    .ok {
      action := "unknown"
      response := "Navigation command not recognized"
      data := RespData.nodata
      speechText := "Navigation command not recognized. Say \"help\" to hear available commands, or try \"go home\", \"search page\", \"favorites\", or \"settings\"."
      navigationInstructions := []
      predictedNextActions := [] }

/-- Name of a `Ctx`, as passed to `analyzeCommandIntent`. -/
def ctxName : Ctx → String
  | .search => "search"
  | .player => "player"
  | .details => "details"
  | .navigation => "navigation"

/-- `processVoiceCommand` — the `interpret` entry point: normalize, classify,
dispatch on the caller-supplied context. -/
def processVoiceCommand (command : Str) (context : Ctx) (movieId : Option ℕ)
    (userId : Option String) (store : ℕ → Option Movie) :
    Except APIErr VoiceCommandResponse :=
  let normalizedCommand := trimStr (lc command)
  let commandIntent := analyzeCommandIntent normalizedCommand (ctxName context)
  match context with
  | .search => handleSearchCommands normalizedCommand commandIntent userId
  | .player => handlePlayerCommands normalizedCommand commandIntent movieId store
  | .details => handleDetailsCommands normalizedCommand commandIntent movieId store
  | .navigation => handleNavigationCommands normalizedCommand commandIntent userId

/-! ## Claims C5, C6, C7, C10 about `processVoiceCommand` -/

/-- The catch-all `unknown` response of each context's handler. -/
def unknownResponse : Ctx → VoiceCommandResponse
  | .search =>
    { action := "unknown"
      response := "I didn't understand that search command"
      data := RespData.nodata
      speechText := "I didn't understand that search command. Try saying \"search for\" followed by a movie title, or \"recommend movies with audio descriptions\"."
      navigationInstructions := []
      predictedNextActions := [] }
  | .player =>
    { action := "unknown"
      response := "Player command not recognized"
      data := RespData.nodata
      speechText := "Player command not recognized. Try \"play\", \"pause\", \"volume up\", \"volume down\", \"enable captions\", or \"describe scene\"."
      navigationInstructions := []
      predictedNextActions := [] }
  | .details =>
    { action := "unknown"
      response := "Details command not recognized"
      data := RespData.nodata
      speechText := "Command not recognized. Try \"tell me about this movie\", \"accessibility features\", \"rating\", or \"find similar movies\"."
      navigationInstructions := []
      predictedNextActions := [] }
  | .navigation =>
    { action := "unknown"
      response := "Navigation command not recognized"
      data := RespData.nodata
      speechText := "Navigation command not recognized. Say \"help\" to hear available commands, or try \"go home\", \"search page\", \"favorites\", or \"settings\"."
      navigationInstructions := []
      predictedNextActions := [] }

theorem handleSearchCommands_total (cmd : Str) (intent : CommandIntent)
    (uid : Option String) :
    ∃ r, handleSearchCommands cmd intent uid = .ok r ∧
      (r.action = "unknown" → r = unknownResponse .search) := by
  unfold handleSearchCommands
  split_ifs <;>
    first
      | exact ⟨_, rfl, fun h => absurd (show ("search" : String) = "unknown" from h) (by decide)⟩
      | exact ⟨_, rfl, fun h => absurd (show ("filter" : String) = "unknown" from h) (by decide)⟩
      | exact ⟨_, rfl, fun h => absurd (show ("recommend" : String) = "unknown" from h) (by decide)⟩
      | exact ⟨_, rfl, fun _ => rfl⟩

theorem handlePlayerCommands_total (cmd : Str) (intent : CommandIntent)
    (movieId : Option ℕ) (store : ℕ → Option Movie) (hmid : movieId.getD 0 ≠ 0) :
    ∃ r, handlePlayerCommands cmd intent movieId store = .ok r ∧
      (r.action = "unknown" → r = unknownResponse .player) := by
  unfold handlePlayerCommands
  simp only [if_neg hmid]
  split_ifs <;>
    first
      | exact ⟨_, rfl, fun h => absurd (show ("play" : String) = "unknown" from h) (by decide)⟩
      | exact ⟨_, rfl, fun h => absurd (show ("pause" : String) = "unknown" from h) (by decide)⟩
      | exact ⟨_, rfl, fun h => absurd (show ("volume" : String) = "unknown" from h) (by decide)⟩
      | exact ⟨_, rfl, fun h => absurd (show ("captions" : String) = "unknown" from h) (by decide)⟩
      | exact ⟨_, rfl, fun h => absurd (show ("describe" : String) = "unknown" from h) (by decide)⟩
      | exact ⟨_, rfl, fun _ => rfl⟩

theorem handleDetailsCommands_total (cmd : Str) (intent : CommandIntent)
    (movieId : Option ℕ) (store : ℕ → Option Movie) (hmid : movieId.getD 0 ≠ 0)
    (hst : (store (movieId.getD 0)).isSome = true) :
    ∃ r, handleDetailsCommands cmd intent movieId store = .ok r ∧
      (r.action = "unknown" → r = unknownResponse .details) := by
  obtain ⟨m, hm⟩ := Option.isSome_iff_exists.mp hst
  unfold handleDetailsCommands
  simp only [if_neg hmid, hm]
  split_ifs <;>
    first
      | exact ⟨_, rfl, fun h =>
          absurd (show ("read_description" : String) = "unknown" from h) (by decide)⟩
      | exact ⟨_, rfl, fun h =>
          absurd (show ("accessibility_features" : String) = "unknown" from h) (by decide)⟩
      | exact ⟨_, rfl, fun h => absurd (show ("rating" : String) = "unknown" from h) (by decide)⟩
      | exact ⟨_, rfl, fun h =>
          absurd (show ("find_similar" : String) = "unknown" from h) (by decide)⟩
      | exact ⟨_, rfl, fun _ => rfl⟩

theorem handleNavigationCommands_total (cmd : Str) (intent : CommandIntent)
    (uid : Option String) :
    ∃ r, handleNavigationCommands cmd intent uid = .ok r ∧
      (r.action = "unknown" → r = unknownResponse .navigation) := by
  unfold handleNavigationCommands
  split_ifs <;>
    first
      | exact ⟨_, rfl, fun h =>
          absurd (show ("navigate_home" : String) = "unknown" from h) (by decide)⟩
      | exact ⟨_, rfl, fun h =>
          absurd (show ("navigate_search" : String) = "unknown" from h) (by decide)⟩
      | exact ⟨_, rfl, fun h =>
          absurd (show ("navigate_favorites" : String) = "unknown" from h) (by decide)⟩
      | exact ⟨_, rfl, fun h =>
          absurd (show ("navigate_settings" : String) = "unknown" from h) (by decide)⟩
      | exact ⟨_, rfl, fun h => absurd (show ("help" : String) = "unknown" from h) (by decide)⟩
      | exact ⟨_, rfl, fun _ => rfl⟩

theorem processVoiceCommand_total_and_catchall
    (command : Str) (context : Ctx) (movieId : Option ℕ) (userId : Option String)
    (store : ℕ → Option Movie)
    (hplayer : context = .player → movieId.getD 0 ≠ 0)
    (hdetails : context = .details →
      movieId.getD 0 ≠ 0 ∧ (store (movieId.getD 0)).isSome = true) :
    ∃ r, processVoiceCommand command context movieId userId store = .ok r ∧
      (r.action = "unknown" → r = unknownResponse context ∧
        r.predictedNextActions = []) := by
  cases context with
  | search =>
    obtain ⟨r, hr, hu⟩ := handleSearchCommands_total (trimStr (lc command))
      (analyzeCommandIntent (trimStr (lc command)) (ctxName .search)) userId
    exact ⟨r, hr, fun h => ⟨hu h, by rw [hu h]; rfl⟩⟩
  | player =>
    obtain ⟨r, hr, hu⟩ := handlePlayerCommands_total (trimStr (lc command))
      (analyzeCommandIntent (trimStr (lc command)) (ctxName .player)) movieId store
      (hplayer rfl)
    exact ⟨r, hr, fun h => ⟨hu h, by rw [hu h]; rfl⟩⟩
  | details =>
    obtain ⟨r, hr, hu⟩ := handleDetailsCommands_total (trimStr (lc command))
      (analyzeCommandIntent (trimStr (lc command)) (ctxName .details)) movieId store
      (hdetails rfl).1 (hdetails rfl).2
    exact ⟨r, hr, fun h => ⟨hu h, by rw [hu h]; rfl⟩⟩
  | navigation =>
    obtain ⟨r, hr, hu⟩ := handleNavigationCommands_total (trimStr (lc command))
      (analyzeCommandIntent (trimStr (lc command)) (ctxName .navigation)) userId
    exact ⟨r, hr, fun h => ⟨hu h, by rw [hu h]; rfl⟩⟩

/-- Witness for C6: the gibberish navigation command "zzzz" yields the navigation
catch-all response. -/
theorem processVoiceCommand_total_and_catchall_witness :
    ∃ r, processVoiceCommand "zzzz".data .navigation none none (fun _ => none) = .ok r ∧
      (r.action = "unknown" → r = unknownResponse .navigation ∧
        r.predictedNextActions = []) :=
  processVoiceCommand_total_and_catchall "zzzz".data .navigation none none (fun _ => none)
    (fun h => by cases h) (fun h => by cases h)

/-- C5 counterexample: a supplied `contentId` of 0 that does not exist in the store
hits the JavaScript falsy check `!movieId` and yields `InvalidArgument`, not
`NotFound`. -/
theorem details_zero_id_counterexample :
    processVoiceCommand "rating".data .details (some 0) none (fun _ => none) =
      .error (.invalidArgument "Movie ID required for details commands") ∧
    processVoiceCommand "rating".data .details (some 0) none (fun _ => none) ≠
      .error (.notFound "Movie not found") := by
  constructor
  · rfl
  · intro h
    have h2 : (Except.error (APIErr.invalidArgument "Movie ID required for details commands") :
        Except APIErr VoiceCommandResponse) = .error (.notFound "Movie not found") := h
    injection h2 with h3
    exact absurd h3 (by decide)

/-- C5 (amended): with no `contentId`, the player and details contexts fail with
`InvalidArgument`; in the details context with a nonzero `contentId` absent from
the store, the call fails with `NotFound` (a `contentId` of 0 is treated as missing
by the falsy check and yields `InvalidArgument` instead). -/
theorem missing_content_id_errors :
    (∀ (cmd : Str) (uid : Option String) (store : ℕ → Option Movie),
      processVoiceCommand cmd .player none uid store =
        .error (.invalidArgument "Movie ID required for player commands"))
    ∧ (∀ (cmd : Str) (uid : Option String) (store : ℕ → Option Movie),
      processVoiceCommand cmd .details none uid store =
        .error (.invalidArgument "Movie ID required for details commands"))
    ∧ (∀ (cmd : Str) (uid : Option String) (store : ℕ → Option Movie) (n : ℕ),
      n ≠ 0 → store n = none →
      processVoiceCommand cmd .details (some n) uid store =
        .error (.notFound "Movie not found")) := by
  refine ⟨fun cmd uid store => rfl, fun cmd uid store => rfl, ?_⟩
  intro cmd uid store n hn hst
  simp [processVoiceCommand, handleDetailsCommands, Option.getD, hn, hst]

/-- Witness for C5: id 5 absent from an empty store in the details context. -/
theorem missing_content_id_errors_witness :
    processVoiceCommand "rating".data .details (some 5) none (fun _ => none) =
      .error (.notFound "Movie not found") :=
  missing_content_id_errors.2.2 "rating".data none (fun _ => none) 5 (by decide) rfl

/-- Projection used to state C7: the extracted query of a successful search response. -/
def searchQueryOf : Except APIErr VoiceCommandResponse → Option Str
  | .ok r =>
    match r.data with
    | RespData.searchData q _ _ => some q
    | _ => none
  | .error _ => none

/-- C7 counterexample: `interpret("search for Free Solo", context=search)` echoes the
query from the lowercased command, so the extracted term is "free solo", not
"Free Solo" as the claim states. -/
theorem search_free_solo_counterexample :
    searchQueryOf (processVoiceCommand "search for Free Solo".data .search none none
      (fun _ => none)) = some "free solo".data ∧
    "free solo".data ≠ "Free Solo".data := by
  constructor
  · rfl
  · decide

/-- C7 (amended): `interpret("search for Free Solo", context=search)` returns action
`search`, and the extracted term is the remainder of the lowercased utterance after
the leading command phrase "search for", i.e. "free solo". -/
theorem search_free_solo (movieId : Option ℕ) (userId : Option String)
    (store : ℕ → Option Movie) :
    ∃ r, processVoiceCommand "search for Free Solo".data .search movieId userId store =
        .ok r ∧
      r.action = "search" ∧
      r.data = RespData.searchData "free solo".data [] none := by
  exact ⟨_, rfl, rfl, rfl⟩

/-- C10: in the player context with a usable `contentId`, any command containing
"caption" that does not classify to the play or pause intent and does not contain
"volume" yields action `captions` with `data.enable = true`: the enable test
searches for "enable"/"on"/"turn on", and "on" occurs inside "caption" itself. -/
theorem player_caption_enable_always_true
    (command : Str) (movieId : Option ℕ) (userId : Option String)
    (store : ℕ → Option Movie)
    (hmid : movieId.getD 0 ≠ 0)
    (hcap : occursIn "caption".data (trimStr (lc command)) = true)
    (hplay : (analyzeCommandIntent (trimStr (lc command)) "player").intent ≠ "play")
    (hpause : (analyzeCommandIntent (trimStr (lc command)) "player").intent ≠ "pause")
    (hvol : occursIn "volume".data (trimStr (lc command)) = false) :
    ∃ r, processVoiceCommand command .player movieId userId store = .ok r ∧
      r.action = "captions" ∧ r.data = RespData.captionsData true := by
  have hon : occursIn "on".data (trimStr (lc command)) = true := by
    rw [occursIn_iff] at hcap ⊢
    exact List.IsInfix.trans (by decide) hcap
  have hres : processVoiceCommand command .player movieId userId store = .ok
    { action := "captions"
      response := "Enabling captions"
      data := RespData.captionsData true
      speechText := "Closed captions enabled."
      navigationInstructions := []
      predictedNextActions := [
        ⟨"continue_watching", "Continue with captions", 0.9⟩,
        ⟨"adjust_caption_settings", "Customize caption appearance", 0.6⟩] } := by
    simp only [processVoiceCommand, handlePlayerCommands, ctxName]
    simp [if_neg hmid, hplay, hpause, hvol, hcap, hon]
  exact ⟨_, hres, rfl, rfl⟩

/-- Witness for C10: "disable captions" still enables captions. -/
theorem player_caption_enable_always_true_witness :
    ∃ r, processVoiceCommand "disable captions".data .player (some 42) none
        (fun _ => none) = .ok r ∧
      r.action = "captions" ∧ r.data = RespData.captionsData true :=
  player_caption_enable_always_true "disable captions".data (some 42) none (fun _ => none)
    (by decide) (by decide) (by decide) (by decide) (by decide)

/-! ## `BrailleDisplay` (`convertToBraille`) — the Braille codec -/

/-- The two Braille grading schemes (`'1' | '2'` in the source). -/
inductive BrailleGrade where
  | grade1 | grade2
deriving DecidableEq

/-- The single-character entries of `brailleMap` (letters, digits with the number
prefix `⠼`, punctuation), in source order. -/
def grade1Pairs : List (Str × Str) :=
  [ (['a'], ['⠁']), (['b'], ['⠃']), (['c'], ['⠉']), (['d'], ['⠙']), (['e'], ['⠑']),
    (['f'], ['⠋']), (['g'], ['⠛']), (['h'], ['⠓']), (['i'], ['⠊']), (['j'], ['⠚']),
    (['k'], ['⠅']), (['l'], ['⠇']), (['m'], ['⠍']), (['n'], ['⠝']), (['o'], ['⠕']),
    (['p'], ['⠏']), (['q'], ['⠟']), (['r'], ['⠗']), (['s'], ['⠎']), (['t'], ['⠞']),
    (['u'], ['⠥']), (['v'], ['⠧']), (['w'], ['⠺']), (['x'], ['⠭']), (['y'], ['⠽']),
    (['z'], ['⠵']),
    (['1'], ['⠼', '⠁']), (['2'], ['⠼', '⠃']), (['3'], ['⠼', '⠉']), (['4'], ['⠼', '⠙']),
    (['5'], ['⠼', '⠑']), (['6'], ['⠼', '⠋']), (['7'], ['⠼', '⠛']), (['8'], ['⠼', '⠓']),
    (['9'], ['⠼', '⠊']), (['0'], ['⠼', '⠚']),
    ([' '], ['⠀']), (['.'], ['⠲']), ([','], ['⠂']), (['!'], ['⠖']), (['?'], ['⠦']),
    ([':'], ['⠒']), ([';'], ['⠆']), (['-'], ['⠤']), (['('], ['⠶']), ([')'], ['⠶']),
    (['"'], ['⠦']), (['\''], ['⠄']), (['/'], ['⠌']), (['\\'], ['⠡']) ]

/-- The Grade-2 whole-word contraction entries, in source order. -/
def contractionPairs : List (Str × Str) :=
  [ ("and".data, ['⠯']), ("for".data, ['⠿']), ("of".data, ['⠷']), ("the".data, ['⠮']),
    ("with".data, ['⠾']), ("you".data, ['⠽']), ("as".data, ['⠵']), ("but".data, ['⠃']),
    ("can".data, ['⠉']), ("do".data, ['⠙']), ("every".data, ['⠑']), ("from".data, ['⠋']),
    ("go".data, ['⠛']), ("have".data, ['⠓']), ("just".data, ['⠚']),
    ("knowledge".data, ['⠅']), ("like".data, ['⠇']), ("more".data, ['⠍']),
    ("not".data, ['⠝']), ("people".data, ['⠏']), ("quite".data, ['⠟']),
    ("rather".data, ['⠗']), ("so".data, ['⠎']), ("that".data, ['⠞']), ("us".data, ['⠥']),
    ("very".data, ['⠧']), ("will".data, ['⠺']), ("it".data, ['⠭']), ("were".data, ['⠽']),
    ("his".data, ['⠵']) ]

/-- The `brailleMap` object for each grade: Grade 2 spreads the contraction
entries on top of the single-character entries (the key sets are disjoint). -/
def bMap : BrailleGrade → List (Str × Str)
  | .grade1 => grade1Pairs
  | .grade2 => grade1Pairs ++ contractionPairs

/-- The inner `for (let len = 10; len >= 2; len--)` loop of `convertToBraille`:
look up `substr(i, len).toLowerCase()` in the merged map, counting `len` down;
on a hit return the cells and the loop length. -/
def tryContr (rem : Str) : ℕ → Option (Str × ℕ)
  | 0 => none
  | n + 1 =>
    if n + 1 < 2 then none
    else
      match alookup (grade1Pairs ++ contractionPairs) (lc (rem.take (n + 1))) with
      | some cells => some (cells, n + 1)
      | none => tryContr rem n

/-- The main `while (i < inputText.length)` loop of `convertToBraille`.  A Grade-2
contraction hit advances the cursor by the loop length `len` (which `List.drop`
clamps at the end of the input exactly as `substr` shortens the compared key);
otherwise the single lowercased character is emitted via the map, or literally. -/
def brailleLoop (grade : BrailleGrade) : Str → Str
  | [] => []
  | c :: rest =>
    match (match grade with
           | BrailleGrade.grade2 => tryContr (c :: rest) 10
           | BrailleGrade.grade1 => none) with
    | some (cells, len) => cells ++ brailleLoop grade (rest.drop (len - 1))
    | none =>
      (match alookup (bMap grade) [c.toLower] with
       | some cells => cells
       | none => [c.toLower]) ++ brailleLoop grade rest
termination_by s => s.length
decreasing_by
  · simp only [List.length_drop, List.length_cons]; omega
  · simp only [List.length_cons]; omega

/-- The `for (i += cellsPerLine)` chunking loop of `formatBrailleLines`
(the source loops forever on `cellsPerLine = 0`; that case is mapped to `[]`
and excluded by every claim, which requires a positive width). -/
def chunksOf (n : ℕ) (s : Str) : List Str :=
  if _hc : s = [] ∨ n = 0 then []
  else s.take n :: chunksOf n (s.drop n)
termination_by s.length
decreasing_by
  push_neg at _hc
  have hs : s.length ≠ 0 := fun h0 => _hc.1 (List.eq_nil_of_length_eq_zero h0)
  simp only [List.length_drop]
  omega

/-- `lines.join('\n')`. -/
def joinNL : List Str → Str
  | [] => []
  | [l] => l
  | l :: ls => l ++ '\n' :: joinNL ls

/-- `formatBrailleLines(brailleText, cellsPerLine)`. -/
def formatBrailleLines (brailleText : Str) (cellsPerLine : ℕ) : Str :=
  joinNL (chunksOf cellsPerLine brailleText)

/-- `convertToBraille(inputText, grade)` with the component's `cellsPerLine` state. -/
def convertToBraille (inputText : Str) (grade : BrailleGrade) (cellsPerLine : ℕ) : Str :=
  formatBrailleLines (brailleLoop grade inputText) cellsPerLine

/-- Undo the line formatting: strip the inserted line-break characters. -/
def stripNL (s : Str) : Str := s.filter (fun c => !(c == '\n'))

theorem brailleLoop_nil (g : BrailleGrade) : brailleLoop g [] = [] := by
  simp [brailleLoop]

theorem brailleLoop_grade2_cons (c : Char) (rest : Str) :
    brailleLoop .grade2 (c :: rest) =
      match tryContr (c :: rest) 10 with
      | some (cells, len) => cells ++ brailleLoop .grade2 (rest.drop (len - 1))
      | none =>
        (match alookup (grade1Pairs ++ contractionPairs) [c.toLower] with
         | some cells => cells
         | none => [c.toLower]) ++ brailleLoop .grade2 rest := by
  rw [brailleLoop]
  rfl

theorem brailleLoop_grade1_cons (c : Char) (rest : Str) :
    brailleLoop .grade1 (c :: rest) =
      (match alookup grade1Pairs [c.toLower] with
       | some cells => cells
       | none => [c.toLower]) ++ brailleLoop .grade1 rest := by
  rw [brailleLoop]
  rfl

theorem tryContr_hit (rem : Str) (len : ℕ) (cells : Str) :
    ∀ N, 2 ≤ len → len ≤ N →
    (∀ l, len < l → l ≤ N →
      alookup (grade1Pairs ++ contractionPairs) (lc (rem.take l)) = none) →
    alookup (grade1Pairs ++ contractionPairs) (lc (rem.take len)) = some cells →
    tryContr rem N = some (cells, len) := by
  intro N
  induction N with
  | zero => intro h2 hN _ _; omega
  | succ n ih =>
    intro h2 hN habove hhit
    rw [tryContr, if_neg (by omega)]
    by_cases hEq : len = n + 1
    · subst hEq
      rw [hhit]
    · rw [habove (n + 1) (by omega) le_rfl]
      exact ih h2 (by omega) (fun l hl hlN => habove l hl (by omega)) hhit

theorem tryContr_none (rem : Str) :
    ∀ N, (∀ l, 2 ≤ l → l ≤ N →
      alookup (grade1Pairs ++ contractionPairs) (lc (rem.take l)) = none) →
    tryContr rem N = none := by
  intro N
  induction N with
  | zero => intro _; rfl
  | succ n ih =>
    intro h
    rw [tryContr]
    by_cases hlt : n + 1 < 2
    · rw [if_pos hlt]
    · rw [if_neg hlt, h (n + 1) (by omega) le_rfl]
      exact ih (fun l hl hlN => h l hl (by omega))

theorem brailleLoop_grade2_step (s : Str) (len : ℕ) (cells : Str)
    (hs : s ≠ []) (h2 : 2 ≤ len) (h10 : len ≤ 10)
    (hhit : alookup (grade1Pairs ++ contractionPairs) (lc (s.take len)) = some cells)
    (habove : ∀ l, len < l → l ≤ 10 →
      alookup (grade1Pairs ++ contractionPairs) (lc (s.take l)) = none) :
    brailleLoop .grade2 s = cells ++ brailleLoop .grade2 (s.drop len) := by
  obtain ⟨c, rest, rfl⟩ := List.exists_cons_of_ne_nil hs
  rw [brailleLoop_grade2_cons, tryContr_hit (c :: rest) len cells 10 h2 h10 habove hhit]
  show cells ++ brailleLoop .grade2 (rest.drop (len - 1)) =
    cells ++ brailleLoop .grade2 ((c :: rest).drop len)
  congr 2
  rw [show len = (len - 1) + 1 by omega, List.drop_succ_cons]
  simp

theorem brailleLoop_grade2_fallback (c : Char) (rest : Str)
    (hnone : ∀ l, 2 ≤ l → l ≤ 10 →
      alookup (grade1Pairs ++ contractionPairs) (lc ((c :: rest).take l)) = none) :
    brailleLoop .grade2 (c :: rest) =
      (match alookup (grade1Pairs ++ contractionPairs) [c.toLower] with
       | some cells => cells
       | none => [c.toLower]) ++ brailleLoop .grade2 rest := by
  rw [brailleLoop_grade2_cons, tryContr_none (c :: rest) 10 hnone]

/-- C2: Grade-2 encoding moves left-to-right; at each position it tries substring
lengths from 10 down to 2 against the (merged) map, emits the first hit's cells and
advances past the matched length, and otherwise falls back to the single-character
Grade-1 cell (or the lowercased character itself) and advances by one.  Matching
ignores word boundaries: "sand" encodes as the 's' cell followed by the "and"
contraction cell. -/
theorem convertToBraille_grade2_matching :
    (∀ (s : Str) (len : ℕ) (cells : Str),
      s ≠ [] → 2 ≤ len → len ≤ 10 →
      alookup (grade1Pairs ++ contractionPairs) (lc (s.take len)) = some cells →
      (∀ l (_ : l < 11), len < l →
        alookup (grade1Pairs ++ contractionPairs) (lc (s.take l)) = none) →
      brailleLoop .grade2 s = cells ++ brailleLoop .grade2 (s.drop len))
    ∧ (∀ (c : Char) (rest : Str),
      (∀ l (_ : l < 11), 2 ≤ l →
        alookup (grade1Pairs ++ contractionPairs) (lc ((c :: rest).take l)) = none) →
      brailleLoop .grade2 (c :: rest) =
        (match alookup (grade1Pairs ++ contractionPairs) [c.toLower] with
         | some cells => cells
         | none => [c.toLower]) ++ brailleLoop .grade2 rest)
    ∧ brailleLoop .grade2 "sand".data = ['⠎', '⠯'] := by
  refine ⟨?_, ?_, ?_⟩
  · intro s len cells hs h2 h10 hhit habove
    exact brailleLoop_grade2_step s len cells hs h2 h10 hhit
      (fun l hl hl10 => habove l (by omega) hl)
  · intro c rest hnone
    exact brailleLoop_grade2_fallback c rest (fun l hl hl10 => hnone l (by omega) hl)
  · have h1 : brailleLoop .grade2 "sand".data =
        ['⠎'] ++ brailleLoop .grade2 "and".data := by
      have := brailleLoop_grade2_fallback 's' "and".data
        (fun l hl hl10 => by interval_cases l <;> rfl)
      simpa using this
    have h2 : brailleLoop .grade2 "and".data =
        ['⠯'] ++ brailleLoop .grade2 ([] : Str) := by
      have := brailleLoop_grade2_step "and".data 10 ['⠯'] (by decide) (by omega)
        le_rfl (by rfl) (fun l hl hl10 => by omega)
      simpa using this
    rw [h1, h2, brailleLoop_nil]
    rfl

/-- Witness for C2: in "and x" the contraction "and" (the longest hit, found at
loop length 3 after lengths 10..4 miss) is emitted and the cursor advances past
it. -/
theorem convertToBraille_grade2_matching_witness :
    brailleLoop .grade2 "and x".data = ['⠯'] ++ brailleLoop .grade2 " x".data := by
  have h := convertToBraille_grade2_matching.1 "and x".data 3 ['⠯'] (by decide)
    (by decide) (by decide) (by rfl) (by decide)
  exact h

/-! ## Claim C3 — Grade-1 cell counting -/

/-- The ten decimal digit characters. -/
def digitChars : List Char := ['0', '1', '2', '3', '4', '5', '6', '7', '8', '9']

theorem alookup_mem {l : List (Str × Str)} {k v : Str} (h : alookup l k = some v) :
    (k, v) ∈ l := by
  induction l with
  | nil => cases h
  | cons p rest ih =>
    obtain ⟨k', v'⟩ := p
    by_cases hk : k = k'
    · rw [alookup, if_pos hk] at h
      injection h with hv
      exact List.mem_cons.mpr (Or.inl (by rw [hk, hv]))
    · rw [alookup, if_neg hk] at h
      exact List.mem_cons_of_mem _ (ih h)

theorem emit1_length (c : Char) :
    ((match alookup grade1Pairs [c] with
      | some cells => cells
      | none => [c]) : Str).length = if c ∈ digitChars then 2 else 1 := by
  by_cases hd : c ∈ digitChars
  · rw [if_pos hd]
    fin_cases hd <;> rfl
  · rw [if_neg hd]
    rcases hlk : alookup grade1Pairs [c] with _ | cells
    · rfl
    · have hmem : ([c], cells) ∈ grade1Pairs := alookup_mem hlk
      have htab : ∀ p ∈ grade1Pairs, (∀ d ∈ digitChars, p.1 ≠ [d]) → p.2.length = 1 := by
        decide
      refine htab _ hmem ?_
      intro d hdm heq
      injection heq with h1 _
      exact hd (h1 ▸ hdm)

theorem brailleLoop_grade1_length (s : Str) :
    (brailleLoop .grade1 s).length =
      s.length + s.countP (fun c => decide (c.toLower ∈ digitChars)) := by
  induction s with
  | nil => rw [brailleLoop_nil]; rfl
  | cons c rest ih =>
    rw [brailleLoop_grade1_cons, List.length_append, ih, List.countP_cons]
    have hlen := emit1_length c.toLower
    by_cases hd : c.toLower ∈ digitChars
    · rw [if_pos hd] at hlen
      rw [hlen]
      simp only [hd, decide_eq_true_eq, if_true, List.length_cons, decide_True]
      omega
    · rw [if_neg hd] at hlen
      rw [hlen]
      simp only [List.length_cons]
      rw [if_neg (by simpa using hd)]
      omega

theorem toNat_ofNat_of_lt {n : ℕ} (h : n < 55296) : (Char.ofNat n).toNat = n := by
  unfold Char.ofNat
  rw [dif_pos (Or.inl h)]
  rfl

theorem toLower_ne_newline {c : Char} (hc : c ≠ '\n') : c.toLower ≠ '\n' := by
  intro h
  have h' : (if c.toNat ≥ 65 ∧ c.toNat ≤ 90 then Char.ofNat (c.toNat + 32) else c) =
      '\n' := h
  by_cases hcond : c.toNat ≥ 65 ∧ c.toNat ≤ 90
  · rw [if_pos hcond] at h'
    have h2 := congrArg Char.toNat h'
    rw [toNat_ofNat_of_lt (by omega)] at h2
    have h10 : Char.toNat '\n' = 10 := rfl
    rw [h10] at h2
    omega
  · rw [if_neg hcond] at h'
    exact hc h'

theorem brailleLoop_grade1_no_newline (s : Str) (hs : '\n' ∉ s) :
    '\n' ∉ brailleLoop .grade1 s := by
  induction s with
  | nil => rw [brailleLoop_nil]; simp
  | cons c rest ih =>
    rw [brailleLoop_grade1_cons]
    intro hmem
    rcases List.mem_append.mp hmem with hL | hR
    · rcases hlk : alookup grade1Pairs [c.toLower] with _ | cells
      · rw [hlk] at hL
        simp only [List.mem_singleton] at hL
        exact toLower_ne_newline (fun h => hs (by simp [h])) hL.symm
      · rw [hlk] at hL
        have hmem2 : ([c.toLower], cells) ∈ grade1Pairs := alookup_mem hlk
        have htab : ∀ p ∈ grade1Pairs, '\n' ∉ p.2 := by decide
        exact htab _ hmem2 hL
    · exact ih (fun h => hs (List.mem_cons_of_mem _ h)) hR

theorem flatten_chunksOf (n : ℕ) (hn : n ≠ 0) (s : Str) :
    (chunksOf n s).flatten = s := by
  have key : ∀ (m : ℕ) (s : Str), s.length ≤ m → (chunksOf n s).flatten = s := by
    intro m
    induction m with
    | zero =>
      intro s hs
      have : s = [] := List.eq_nil_of_length_eq_zero (by omega)
      subst this
      rw [chunksOf, dif_pos (Or.inl rfl)]
      rfl
    | succ m ih =>
      intro s hs
      by_cases hsnil : s = []
      · subst hsnil
        rw [chunksOf, dif_pos (Or.inl rfl)]
        rfl
      · rw [chunksOf, dif_neg (by push_neg; exact ⟨hsnil, hn⟩)]
        rw [List.flatten_cons, ih (s.drop n) ?_]
        · exact List.take_append_drop n s
        · have h1 : s.length ≠ 0 := fun h0 => hsnil (List.eq_nil_of_length_eq_zero h0)
          simp only [List.length_drop]
          omega
  exact key s.length s le_rfl

theorem stripNL_joinNL (L : List Str) (h : ∀ l ∈ L, ∀ c ∈ l, c ≠ '\n') :
    stripNL (joinNL L) = L.flatten := by
  induction L with
  | nil => rfl
  | cons l ls ih =>
    have hl : List.filter (fun c => !(c == '\n')) l = l :=
      List.filter_eq_self.mpr (fun c hc => by
        simpa using h l (List.mem_cons_self _ _) c hc)
    cases ls with
    | nil =>
      show List.filter (fun c => !(c == '\n')) l = List.flatten [l]
      rw [hl]
      simp
    | cons l2 ls2 =>
      show List.filter (fun c => !(c == '\n')) (l ++ '\n' :: joinNL (l2 :: ls2)) = _
      rw [List.filter_append, hl]
      have hnl : ((('\n' : Char) == '\n') : Bool) = true := by decide
      rw [List.filter_cons]
      simp only [hnl, Bool.not_true, Bool.false_eq_true, if_false]
      rw [show List.filter (fun c => !(c == '\n')) (joinNL (l2 :: ls2)) =
          stripNL (joinNL (l2 :: ls2)) from rfl]
      rw [ih (fun l' hl' => h l' (List.mem_cons_of_mem _ hl'))]
      simp

theorem mem_of_mem_chunksOf {n : ℕ} (hn : n ≠ 0) {s l : Str} {c : Char}
    (hl : l ∈ chunksOf n s) (hc : c ∈ l) : c ∈ s := by
  have hflat : c ∈ (chunksOf n s).flatten := List.mem_flatten.mpr ⟨l, hl, hc⟩
  rwa [flatten_chunksOf n hn s] at hflat

/-- C3 counterexample: under Grade 1 a digit emits two cells (the number prefix and
the digit cell), so encoding "1" with any width, stripped of line breaks, yields 2
cells for 1 input character — the claimed one-to-one character-to-cell property
fails. -/
theorem grade1_digit_two_cells_counterexample :
    (stripNL (convertToBraille "1".data BrailleGrade.grade1 40)).length ≠
      ("1".data).length ∧
    stripNL (convertToBraille "1".data BrailleGrade.grade1 40) = ['⠼', '⠁'] := by
  have hB : brailleLoop .grade1 "1".data = ['⠼', '⠁'] := by
    rw [show "1".data = ['1'] from rfl, brailleLoop_grade1_cons, brailleLoop_nil]
    rfl
  have hchunks : chunksOf 40 ['⠼', '⠁'] = [['⠼', '⠁']] := by
    rw [chunksOf, dif_neg (by simp), chunksOf]
    norm_num
  constructor
  · rw [convertToBraille, formatBrailleLines, hB, hchunks]
    decide
  · rw [convertToBraille, formatBrailleLines, hB, hchunks]
    rfl

/-- C3 (amended): for every newline-free input text and every positive
`cellsPerLine`, the Grade-1 encoding, stripped of line breaks and re-joined, has
one cell per input character plus one extra (number-prefix) cell per decimal digit;
in particular the mapping is one-to-one exactly on digit-free inputs. -/
theorem brailleEncode_grade1_cell_count (text : Str) (n : ℕ) (hn : 0 < n)
    (hnl : '\n' ∉ text) :
    (stripNL (convertToBraille text BrailleGrade.grade1 n)).length =
      text.length + text.countP (fun c => decide (c.toLower ∈ digitChars)) := by
  have hB := brailleLoop_grade1_no_newline text hnl
  rw [convertToBraille, formatBrailleLines,
    stripNL_joinNL _ (fun l hl c hc hceq =>
      hB (hceq ▸ mem_of_mem_chunksOf (by omega) hl hc)),
    flatten_chunksOf n (by omega), brailleLoop_grade1_length]

/-- Witness for C3: "ab1" has 3 characters, one of them a digit, so the stripped
Grade-1 encoding at width 2 has 3 + 1 cells. -/
theorem brailleEncode_grade1_cell_count_witness :
    (stripNL (convertToBraille "ab1".data BrailleGrade.grade1 2)).length =
      ("ab1".data).length +
        ("ab1".data).countP (fun c => decide (c.toLower ∈ digitChars)) :=
  brailleEncode_grade1_cell_count "ab1".data 2 (by decide) (by decide)

/-! ## `calculateMovieAccessibilityScore` — claim C4 -/

/-- `calculateMovieAccessibilityScore(movie)`: accumulate the four weights, then
`Math.min(score, 1.0)`. -/
def calculateMovieAccessibilityScore (movie : Movie) : ℚ :=
  min ((0 : ℚ)
    + (if movie.audio_description_available then 0.3 else 0)
    + (if movie.closed_captions_available then 0.3 else 0)
    + (if movie.sign_language_available then 0.2 else 0)
    + (if movie.narrated_description then 0.2 else 0)) 1

/-- C4: the accessibility score is the weighted sum
0.3·audioDescription + 0.3·closedCaptions + 0.2·signLanguage + 0.2·narration
clamped to [0,1]; it always lies in [0,1]; and an item with only audio description
and closed captions scores exactly 0.6. -/
theorem calculateMovieAccessibilityScore_spec :
    (∀ m : Movie,
      calculateMovieAccessibilityScore m =
        max 0 (min ((if m.audio_description_available then (0.3 : ℚ) else 0) +
          (if m.closed_captions_available then 0.3 else 0) +
          (if m.sign_language_available then 0.2 else 0) +
          (if m.narrated_description then 0.2 else 0)) 1))
    ∧ (∀ m : Movie, 0 ≤ calculateMovieAccessibilityScore m ∧
        calculateMovieAccessibilityScore m ≤ 1)
    ∧ calculateMovieAccessibilityScore
        { title := "", overview := "", vote_average := 0, vote_count := 0,
          audio_description_available := true, closed_captions_available := true,
          sign_language_available := false, narrated_description := false } = 0.6 := by
  refine ⟨?_, ?_, ?_⟩
  · intro m
    unfold calculateMovieAccessibilityScore
    split_ifs <;> norm_num
  · intro m
    unfold calculateMovieAccessibilityScore
    constructor
    · split_ifs <;> norm_num
    · split_ifs <;> norm_num
  · unfold calculateMovieAccessibilityScore
    norm_num

/-! ## `ai_agent.ts` (`processAIQuery`) — claims C8 and C9 -/

/-- The optional `userPreferences` payload of an AI-agent request. -/
structure UserPreferences where
  aiProvider : Option String
  voiceEnabled : Option Bool
  accessibilityNeeds : Option (List String)
  preferredGenres : Option (List String)
deriving DecidableEq

/-- What the (stubbed) provider calls return on success; a thrown provider error is
the `Except.error` side of the collaborator outcome below. -/
structure ProviderResult where
  response : String
  action : Option String
  data : Option (String × String)
  speechText : Option String
  confidence : ℚ
  followUpQuestions : List String
deriving DecidableEq

/-- The `AIAgentResponse` record (absent optional fields are `none` / `[]`). -/
structure AIAgentResponse where
  response : String
  action : Option String
  data : Option (String × String)
  suggestions : List String
  speechText : Option String
  confidence : ℚ
  followUpQuestions : List String
  predictedNextActions : List PredictedAction
deriving DecidableEq

/-- `analyzeUserIntent(query, context)` — keyword scan over the lowercased query. -/
def analyzeUserIntent (query : Str) (_context : String) : String :=
  let ql := lc query
  if occursIn "search".data ql || occursIn "find".data ql ||
      occursIn "look for".data ql then "search"
  else if occursIn "recommend".data ql || occursIn "suggest".data ql ||
      occursIn "what should".data ql then "recommendation"
  else if occursIn "help".data ql || occursIn "how to".data ql ||
      occursIn "navigate".data ql then "help"
  else if occursIn "accessibility".data ql || occursIn "audio description".data ql ||
      occursIn "captions".data ql then "accessibility"
  else if occursIn "play".data ql || occursIn "watch".data ql ||
      occursIn "stream".data ql then "playback"
  else "general"

/-- The fixed `predictions` table of `predictNextActions`, in source order. -/
def predictionsTable : List (String × List PredictedAction) :=
  [ ("search", [
      ⟨"apply_filters", "Apply accessibility filters to search results", 0.8⟩,
      ⟨"view_details", "View detailed information about a movie", 0.7⟩,
      ⟨"play_content", "Start watching selected content", 0.6⟩]),
    ("recommendation", [
      ⟨"view_recommendations", "Browse personalized recommendations", 0.9⟩,
      ⟨"save_to_favorites", "Add recommended content to favorites", 0.7⟩,
      ⟨"adjust_preferences", "Modify recommendation preferences", 0.5⟩]),
    ("help", [
      ⟨"access_tutorials", "View accessibility tutorials", 0.8⟩,
      ⟨"adjust_settings", "Modify accessibility settings", 0.7⟩,
      ⟨"contact_support", "Get additional help from support", 0.4⟩]),
    ("accessibility", [
      ⟨"configure_features", "Set up accessibility features", 0.9⟩,
      ⟨"test_features", "Test accessibility settings", 0.8⟩,
      ⟨"browse_accessible_content", "Find content with specific features", 0.7⟩]),
    ("playback", [
      ⟨"enable_audio_description", "Turn on audio descriptions", 0.9⟩,
      ⟨"enable_captions", "Enable closed captions", 0.8⟩,
      ⟨"adjust_playback_speed", "Modify playback speed for better comprehension", 0.6⟩]) ]

/-- The `predictions[intent] || [...]` default list. -/
def defaultPredictedActions : List PredictedAction :=
  [ ⟨"explore_content", "Browse available content", 0.6⟩,
    ⟨"get_help", "Access help and tutorials", 0.5⟩ ]

/-- `predictNextActions(intent, userPreferences)` — static lookup keyed by the
intent name; the `userPreferences` argument is never read. -/
def predictNextActions (intent : String)
    (_userPreferences : Option UserPreferences) : List PredictedAction :=
  (List.lookup intent predictionsTable).getD defaultPredictedActions

/-- The fixed `suggestions` table of `generateContextualSuggestions`. -/
def suggestionsTable : List (String × List String) :=
  [ ("search", [
      "Try searching for 'audio description movies'",
      "Filter by accessibility features",
      "Browse by genre with accessibility options",
      "Use voice search for hands-free browsing"]),
    ("recommendation", [
      "Explore documentaries with audio descriptions",
      "Check out highly-rated accessible movies",
      "Discover content in your preferred genres",
      "Find movies with sign language interpretation"]),
    ("help", [
      "Learn about keyboard navigation shortcuts",
      "Set up voice commands for easier control",
      "Configure screen reader compatibility",
      "Adjust text size and contrast settings"]),
    ("accessibility", [
      "Test audio description settings",
      "Configure closed caption preferences",
      "Set up braille display options",
      "Customize voice navigation commands"]),
    ("playback", [
      "Enable audio descriptions before playing",
      "Check caption language options",
      "Adjust volume and audio balance",
      "Use keyboard shortcuts for playback control"]) ]

/-- `generateContextualSuggestions(intent, context, userPreferences)`. -/
def generateContextualSuggestions (intent : String) (_context : String)
    (_prefs : Option UserPreferences) : List String :=
  (List.lookup intent suggestionsTable).getD
    [ "Ask me about accessible movies",
      "Get help with navigation",
      "Explore accessibility features",
      "Find content recommendations" ]

/-- The fallback `AIAgentResponse` built in the `catch` block of `processAIQuery`. -/
def aiFallbackResponse : AIAgentResponse :=
  { response := "I'm having trouble processing your request right now. Please try rephrasing your question or check your AI settings."
    action := none
    data := none
    suggestions := [
      "Try asking about movie recommendations",
      "Search for accessible content",
      "Ask about navigation help"]
    speechText := none
    confidence := 0.1
    followUpQuestions := []
    predictedNextActions := [] }

/-- `processAIQuery`: the provider collaborator's outcome (normal result or thrown
error) is an explicit `Except`; the `try/catch` is the match on it. -/
def processAIQuery (providerOutcome : Except String ProviderResult) (query : Str)
    (context : String) (userPreferences : Option UserPreferences) : AIAgentResponse :=
  match providerOutcome with
  | .ok aiResponse =>
    let intent := analyzeUserIntent query context
    let predictedActions := predictNextActions intent userPreferences
    let suggestions := generateContextualSuggestions intent context userPreferences
    { response := aiResponse.response
      action := aiResponse.action
      data := aiResponse.data
      suggestions := suggestions
      speechText := some (match aiResponse.speechText with
        | some s => if s = "" then aiResponse.response else s
        | none => aiResponse.response)
      confidence := aiResponse.confidence
      followUpQuestions := aiResponse.followUpQuestions
      predictedNextActions := predictedActions }
  | .error _ => aiFallbackResponse

/-- C8: `processAIQuery` never lets a provider failure escape: whatever query,
context and preferences were supplied, a throwing/unavailable provider yields the
fixed fallback response, whose confidence is 0.1 and whose predicted-next-action
list is empty. -/
theorem processAIQuery_provider_failure (query : Str) (context : String)
    (prefs : Option UserPreferences) (e : String) :
    processAIQuery (.error e) query context prefs = aiFallbackResponse ∧
    (processAIQuery (.error e) query context prefs).confidence = 0.1 ∧
    (processAIQuery (.error e) query context prefs).predictedNextActions = [] :=
  ⟨rfl, rfl, rfl⟩

/-- C9: the action predictor depends on the intent name alone — any two preference
values give the identical fixed list — and intents outside the five-key table get
the fixed default list. -/
theorem predictNextActions_intent_only :
    (∀ (intent : String) (p₁ p₂ : Option UserPreferences),
      predictNextActions intent p₁ = predictNextActions intent p₂)
    ∧ (∀ (intent : String) (p : Option UserPreferences),
        intent ∉ ["search", "recommendation", "help", "accessibility", "playback"] →
        predictNextActions intent p = defaultPredictedActions)
    ∧ (∀ (intent : String) (ps : List PredictedAction) (p : Option UserPreferences),
        (intent, ps) ∈ predictionsTable →
        predictNextActions intent p = ps) := by
  refine ⟨fun _ _ _ => rfl, ?_, ?_⟩
  · intro intent p hni
    have e : ∀ k ∈ ["search", "recommendation", "help", "accessibility", "playback"],
        (intent == k) = false := by
      intro k hk
      exact beq_eq_false_iff_ne.mpr (fun h => hni (h ▸ hk))
    rw [predictNextActions]
    rw [show List.lookup intent predictionsTable = none from ?_]
    · rfl
    · simp only [predictionsTable, List.lookup]
      rw [e "search" (by simp), e "recommendation" (by simp), e "help" (by simp),
        e "accessibility" (by simp), e "playback" (by simp)]
  · intro intent ps p hmem
    simp only [predictionsTable, List.mem_cons, List.mem_singleton] at hmem
    rcases hmem with h | h | h | h | h | h
    case inr.inr.inr.inr.inr => cases h
    all_goals (injection h with h1 h2; subst h1; subst h2; rfl)

/-- Witness for C9: an intent outside the table gets the default list. -/
theorem predictNextActions_intent_only_witness :
    predictNextActions "greeting" none = defaultPredictedActions :=
  predictNextActions_intent_only.2.1 "greeting" none (by decide)

end Spec2Proof
